import Mathlib

/-!
Verification of the cdn-payroll formula pipeline (CRA T4127-style payroll
withholding).  Each Rust source function is shallowly embedded as a Lean
function: `f64` arithmetic is modelled by exact rational arithmetic over `ℚ`,
`i64` by `ℤ` (with Rust's truncating division `Int.tdiv` where the source
divides integers), `Result<T, E>` by `Except`, and a Rust runtime panic by an
explicit `Except.error RustPanic.divideByZero`.
-/

set_option maxRecDepth 8000

namespace CdnPayroll

namespace utils

/-- Modelled from the spec: the repository's `utils::round` helper (its file is
not in the provided sources).  Rounds a monetary value to the nearest cent,
half away from zero.  `roundHalf` rounds a rational to the nearest integer,
ties away from zero. -/
def roundHalf (x : ℚ) : ℤ :=
  if x < 0 then -⌊-x + 1/2⌋ else ⌊x + 1/2⌋

/-- Modelled from the spec: round to the nearest cent, half away from zero. -/
def round (x : ℚ) : ℚ :=
  (roundHalf (x * 100) : ℚ) / 100

end utils

namespace v2025

/-- Modelled from the spec: lower BPA phase-out threshold `T4`
(`NI ≤ 177882` gives the minimum BPA). -/
def INCOME_THRESHOLD_4 : ℚ := 177882

/-- Modelled from the spec: upper BPA phase-out threshold `T5`
(`NI ≥ 253414.01` gives the maximum BPA, and the coded branch is `NI > T5`). -/
def INCOME_THRESHOLD_5 : ℚ := 253414

/-- Modelled from the spec: minimum Basic Personal Amount `16129.0`. -/
def MINIMUM_BASIC_AMT : ℚ := 16129

/-- Modelled from the spec: maximum Basic Personal Amount `14538.0`. -/
def MAXIMUM_BASIC_AMT : ℚ := 14538

/-- Modelled from the spec: the annual EI maximum premium constant referenced
by `K2`, `K2P`, `K2_grad`, `K2_YTD` and `EI` (its file is not in the provided
sources; the spec gives no numeric value, so the 2025 statutory employee EI
maximum 1077.48 is used). -/
def EI_MAX_CONTRIBUTIONS : ℚ := 1077.48

/-- Modelled from the spec: the annual CPP maximum base contribution constant
referenced by `K2`, `K2P`, `K2_grad` and `K2_YTD`; the literal `4034.1` that
`other_deductions::C` hard-codes for the same cap is used. -/
def CPP_MAX_CONTRIBUTIONS : ℚ := 4034.1

end v2025

/-- A Rust runtime panic (used to embed `i64` division by zero, which panics
rather than returning a value). -/
inductive RustPanic where
  | divideByZero
  deriving DecidableEq

namespace basic_personal_income

/-- `BPAF` from `src/basic_personal_income.rs` lines 24-43: federal Basic
Personal Amount.  `BPAF` starts at `0.0`; three branches may overwrite it
(`NI ≤ T4`, `T4 < NI < T5`, `NI > T5` — the middle branch computes
`MINIMUM_BASIC_AMT - (NI * -T4) * (1591/75532)` exactly as coded, with the
literal `NI*-T4` product); if it is still `0.0` afterwards the function
returns `Err(0.0)`, otherwise `Ok(round(BPAF))`. -/
def BPAF (A HD : ℚ) : Except ℚ ℚ :=
  let NI := A + HD
  let bpaf : ℚ :=
    if NI ≤ v2025.INCOME_THRESHOLD_4 then
      v2025.MINIMUM_BASIC_AMT
    else if v2025.INCOME_THRESHOLD_4 < NI ∧ NI < v2025.INCOME_THRESHOLD_5 then
      v2025.MINIMUM_BASIC_AMT - (NI * -v2025.INCOME_THRESHOLD_4) * (1591 / 75532)
    else if NI > v2025.INCOME_THRESHOLD_5 then
      v2025.MAXIMUM_BASIC_AMT
    else
      0
  if bpaf = 0 then Except.error 0 else Except.ok (utils.round bpaf)

/-- `A` from `src/basic_personal_income.rs` lines 75-82: periodic annual
taxable income.  Computes `a = P*(I - F - F2 - F5A - U1) - HD - F1`; when `a`
is negative the estimated tax `T` is replaced by the requested extra deduction
`L`; returns `(round(a), T)`. -/
def A (P : ℤ) (I F F2 F5A U1 HD F1 T L : ℚ) : ℚ × ℚ :=
  let a : ℚ := (P : ℚ) * (I - F - F2 - F5A - U1) - HD - F1
  (utils.round a, if a < 0 then L else T)

/-- `A_grad` from `src/basic_personal_income.rs` lines 115-121: cumulative
annual taxable income, floored at zero. -/
def A_grad (S1 I F F1 F2 F4 F5A F5B U1 B1 HD : ℚ) : ℚ :=
  let a : ℚ := (S1 * (I - F - F2 - F5A - U1)) + (B1 - F4 - F5B) - HD - F1
  if a < 0 then 0 else a

/-- `S1` from `src/basic_personal_income.rs` lines 131-133: the annualizing
factor `(total_pay_periods / current_pay_period) as f64`.  The division is
Rust `i64` division: it truncates toward zero and panics when the divisor is
zero — the panic is embedded as `Except.error RustPanic.divideByZero`. -/
def S1 (total_pay_periods current_pay_period : ℤ) : Except RustPanic ℚ :=
  if current_pay_period = 0 then
    Except.error RustPanic.divideByZero
  else
    Except.ok ((Int.tdiv total_pay_periods current_pay_period : ℤ) : ℚ)

end basic_personal_income

namespace federal_income_tax

/-- `F1` from `src/federal_income_tax.rs` lines 21-23: annual deductions
prorated over the remaining pay periods. -/
def F1 (P PR : ℤ) (F1 : ℚ) : ℚ :=
  utils.round (((P : ℚ) * F1) / (PR : ℚ))

/-- `F5` from `src/federal_income_tax.rs` lines 38-43: CPP additional
contribution deduction. -/
def F5 (C C2 : ℚ) : ℚ :=
  if C = 0 ∧ C2 = 0 then 0 else utils.round (C * (0.100 / 0.0595) + C2)

/-- `F5A` from `src/federal_income_tax.rs` lines 61-63: the part of `F5`
attributable to periodic income. -/
def F5A (F5 PI B : ℚ) : ℚ :=
  utils.round (F5 * ((PI - B) / PI))

/-- `T3` from `src/federal_income_tax.rs` lines 95-101: annual basic federal
tax `R*A - K - K1 - K2 - K3 - K4`, clamped to zero when negative, rounded
otherwise. -/
def T3 (R A K K1 K2 K3 K4 : ℚ) : ℚ :=
  let result : ℚ := (R * A) - K - K1 - K2 - K3 - K4
  if result < 0 then 0 else utils.round result

/-- `K1` from `src/federal_income_tax.rs` lines 111-113: federal personal tax
credit `0.15 * TC`. -/
def K1 (TC : ℚ) : ℚ := 0.15 * TC

/-- `K2` from `src/federal_income_tax.rs` lines 129-145: periodic CPP/EI
federal tax credit.  Note the source caps the per-period premium `EI` at
`EI_MAX_CONTRIBUTIONS` before multiplying by `P`, and caps the credit
`0.15*(P*C*(0.0495/0.0595))` at `CPP_MAX_CONTRIBUTIONS` before the
`PM/12` (integer-division) proration. -/
def K2 (P PM : ℤ) (C EI : ℚ) : ℚ :=
  let EI := if EI > v2025.EI_MAX_CONTRIBUTIONS then v2025.EI_MAX_CONTRIBUTIONS else EI
  let result : ℚ := 0.15 * ((P : ℚ) * C * (0.0495 / 0.0595))
  let result := if result > v2025.CPP_MAX_CONTRIBUTIONS then v2025.CPP_MAX_CONTRIBUTIONS else result
  let result := (result * ((Int.tdiv PM 12 : ℤ) : ℚ)) + (0.15 * ((P : ℚ) * EI))
  utils.round result

/-- `K2_grad` from `src/federal_income_tax.rs` lines 164-191: cumulative
CPP/EI federal tax credit. -/
def K2_grad (S1 : ℚ) (PE : ℤ) (B1 EI : ℚ) : ℚ :=
  let cpp : ℚ := (S1 * (PE : ℚ)) + B1 - 3500
  let cpp := if cpp < 0 then 0 else cpp
  let cpp := if cpp > v2025.CPP_MAX_CONTRIBUTIONS then v2025.CPP_MAX_CONTRIBUTIONS else cpp
  let result : ℚ := 0.15 * 0.0495 * cpp
  let ei : ℚ := (S1 * EI) + B1
  let ei := if ei > v2025.EI_MAX_CONTRIBUTIONS then v2025.EI_MAX_CONTRIBUTIONS else ei
  utils.round (result + 0.15 * 0.0164 * ei)

/-- `K2_YTD` from `src/federal_income_tax.rs` lines 213-233: year-to-date
CPP/EI federal tax credit. -/
def K2_YTD (PM PR : ℤ) (C D D1 EI : ℚ) : ℚ :=
  let result : ℚ := 0.15
  let cpp_ftc1 : ℚ := v2025.CPP_MAX_CONTRIBUTIONS * ((Int.tdiv PM 12 : ℤ) : ℚ)
  let cpp_ftc2 : ℚ := (D * (0.0495 / 0.0595)) + ((PR : ℚ) * C * (0.0495 / 0.0595))
  let result := if cpp_ftc1 > cpp_ftc2 then result * cpp_ftc2 else result * cpp_ftc1
  let y : ℚ := D1 + ((PR : ℚ) * EI)
  let ei_ftc : ℚ := if y > v2025.EI_MAX_CONTRIBUTIONS then v2025.EI_MAX_CONTRIBUTIONS else y
  utils.round (result + 0.15 * ei_ftc)

/-- `K3` from `src/federal_income_tax.rs` lines 247-249: other federal
credits prorated (unrounded). -/
def K3 (P PR : ℤ) (K3 : ℚ) : ℚ :=
  ((P : ℚ) * K3) / (PR : ℚ)

/-- `K4` from `src/federal_income_tax.rs` lines 261-269: Canada employment
amount credit, the lesser of `0.15*A` and `0.15*CEA`, rounded. -/
def K4 (A CEA : ℚ) : ℚ :=
  let k41 : ℚ := 0.15 * A
  let k42 : ℚ := 0.15 * CEA
  if k41 > k42 then utils.round k42 else utils.round k41

/-- `T1` from `src/federal_income_tax.rs` lines 285-298: annual federal tax
deduction, clamped to zero when negative. -/
def T1 (T3 : ℚ) (P : ℤ) (LCF : ℚ) (is_outside_city_limits : Bool) : ℚ :=
  let t1 : ℚ :=
    if is_outside_city_limits then T3 + (0.48 * T3) - ((P : ℚ) * LCF)
    else T3 - ((P : ℚ) * LCF)
  if t1 < 0 then 0 else utils.round t1

/-- `T1_grad` from `src/federal_income_tax.rs` lines 314-327: cumulative
annual federal tax deduction, clamped to zero when negative. -/
def T1_grad (T3 LCF : ℚ) (is_outside_city_limits : Bool) : ℚ :=
  let t1 : ℚ :=
    if is_outside_city_limits then T3 + (0.48 * T3) - LCF
    else T3 - LCF
  if t1 < 0 then 0 else utils.round t1

/-- `LCF` from `src/federal_income_tax.rs` lines 337-344: labour-sponsored
funds credit.  As coded: compute `lcf = 0.15 * x`; if `750 > lcf` return
`round(x)` (the raw acquisition amount), else return `750`. -/
def LCF (acquisition_pay_loss : ℚ) : ℚ :=
  let lcf : ℚ := 0.15 * acquisition_pay_loss
  if 750 > lcf then utils.round acquisition_pay_loss else 750

end federal_income_tax

namespace other_deductions

/-- `C` from `src/other_deductions.rs` lines 24-32: periodic CPP
contribution.  As coded it returns the **greater** of
`4034.1 * (PM/12) - D` (remaining prorated cap, integer division `PM/12`)
and `0.0595 * (PI - 3500/P)`, each rounded. -/
def C (PM : ℤ) (D PI : ℚ) (P : ℤ) : ℚ :=
  let c1 : ℚ := 4034.1 * ((Int.tdiv PM 12 : ℤ) : ℚ) - D
  let c2 : ℚ := 0.0595 * (PI - (3500 / (P : ℚ)))
  if c1 < c2 then utils.round c2 else utils.round c1

/-- `C2` from `src/other_deductions.rs` lines 49-63: second-additional CPP
contribution, the lesser of the remaining prorated cap and the marginal
amount, clamped to zero. -/
def C2 (PM : ℤ) (D2 PI_YTD PI W : ℚ) : ℚ :=
  let c21 : ℚ := 396 * ((Int.tdiv PM 12 : ℤ) : ℚ) - D2
  let c22 : ℚ := (PI_YTD + PI - W) * 0.04
  let c2 : ℚ := if c21 < c22 then c21 else c22
  let c2 := if c2 < 0 then 0 else c2
  utils.round c2

/-- `W` from `src/other_deductions.rs` lines 76-83: effective YTD
pensionable-earnings baseline. -/
def W (PI_YTD YMPE : ℚ) (PM : ℤ) : ℚ :=
  let w1 : ℚ := YMPE * ((Int.tdiv PM 12 : ℤ) : ℚ)
  if w1 > PI_YTD then utils.round w1 else PI_YTD

/-- `EI` from `src/other_deductions.rs` lines 100-108: EI premium for the
pay period, the lesser of the remaining cap and `0.0164 * IE`, rounded. -/
def EI (D1 IE : ℚ) : ℚ :=
  let ei1 : ℚ := v2025.EI_MAX_CONTRIBUTIONS - D1
  let ei2 : ℚ := 0.0164 * IE
  if ei1 < ei2 then utils.round ei1 else utils.round ei2

end other_deductions

namespace income_tax

/-- `T` from `src/income_tax.rs` lines 20-22: periodic per-pay-period tax
`round((T1 + T2)/P + L)`. -/
def T (T1 T2 : ℚ) (P : ℤ) (L : ℚ) : ℚ :=
  utils.round (((T1 + T2) / (P : ℚ)) + L)

/-- `T_grad` from `src/income_tax.rs` lines 55-64: cumulative per-pay-period
tax.  Computes `t = (T1_grad + T2 - M1)/S1 - M`; returns `L` when `t` is
negative, `round(t + L)` otherwise. -/
def T_grad (T1_grad T2 M1 S1 M L : ℚ) : ℚ :=
  let t : ℚ := ((T1_grad + T2 - M1) / S1) - M
  if t < 0 then L else utils.round (t + L)

end income_tax

namespace provincial_income_tax

/-- `T4` from `src/provincial_income_tax/provincial_income_tax.rs` lines
25-31: annual basic provincial tax, clamped to zero. -/
def T4 (V A KP K1P K2P K3P K4P : ℚ) : ℚ :=
  let t4 : ℚ := (V * A) - KP - K1P - K2P - K3P - K4P
  if t4 < 0 then 0 else utils.round t4

/-- `T2` from `src/provincial_income_tax/provincial_income_tax.rs` lines
51-57: annual provincial tax deduction, clamped to zero. -/
def T2 (T4 V1 V2 S : ℚ) (P : ℤ) (LCP : ℚ) : ℚ :=
  let t2 : ℚ := T4 + V1 + V2 - S - ((P : ℚ) * LCP)
  if t2 < 0 then 0 else utils.round t2

/-- `K1P` from `src/provincial_income_tax/provincial_income_tax.rs` lines
70-72: provincial personal tax credit. -/
def K1P (lowest_provincial_tax_rate TCP : ℚ) : ℚ :=
  utils.round (lowest_provincial_tax_rate * TCP)

/-- `K2P` from `src/provincial_income_tax/provincial_income_tax.rs` lines
90-106: provincial CPP/EI tax credit.  Note: unlike the federal `K2`, the
annualized premium `P * EI` is capped at `EI_MAX_CONTRIBUTIONS`. -/
def K2P (lowest_provincial_tax_rate : ℚ) (P PM : ℤ) (C EI : ℚ) : ℚ :=
  let cpp : ℚ := (P : ℚ) * C * (0.0495 / 0.0595)
  let cpp := if cpp > v2025.CPP_MAX_CONTRIBUTIONS then v2025.CPP_MAX_CONTRIBUTIONS else cpp
  let k2p : ℚ := lowest_provincial_tax_rate * (cpp * ((Int.tdiv PM 12 : ℤ) : ℚ))
  let ei : ℚ := (P : ℚ) * EI
  let ei := if ei > v2025.EI_MAX_CONTRIBUTIONS then v2025.EI_MAX_CONTRIBUTIONS else ei
  utils.round (k2p + lowest_provincial_tax_rate * ei)

end provincial_income_tax

namespace ontario

/-- `V1` from `src/provincial_income_tax/ontario.rs` lines 13-26: Ontario
surtax, a 3-bracket step function of the basic provincial tax `T4`. -/
def V1 (T4 : ℚ) : ℚ :=
  if T4 ≤ 5710 then 0
  else if T4 > 5710 ∧ T4 < 7307 then 0.2 * (T4 - 5710)
  else utils.round (0.2 * (T4 - 5710) + 0.36 * (T4 - 7307))

/-- `V2` from `src/provincial_income_tax/ontario.rs` lines 36-87: Ontario
health premium, a bracketed function of annual taxable income `A`.  Embedded
exactly as coded, including the `600 + 0.25*(A - 72000)` linear term that the
`48000 < A < 72000` bracket shares with the `72000 < A < 200000` bracket, and
the final catch-all `else` (which also receives the boundary values
`A ∈ \x7b20000, 36000, 48000, 72000\x7d` since every bracket test is strict). -/
def V2 (A : ℚ) : ℚ :=
  if A < 20000 then 0
  else if A > 20000 ∧ A < 36000 then
    (let v2 : ℚ := 0.06 * (A - 20000); if v2 < 300 then utils.round v2 else 300)
  else if A > 36000 ∧ A < 48000 then
    (let v2 : ℚ := 300 + (0.06 * (A - 36000)); if v2 < 450 then utils.round v2 else 450)
  else if A > 48000 ∧ A < 72000 then
    (let v2 : ℚ := 600 + (0.25 * (A - 72000)); if v2 < 750 then utils.round v2 else 750)
  else if A > 72000 ∧ A < 200000 then
    (let v2 : ℚ := 600 + (0.25 * (A - 72000)); if v2 < 900 then utils.round v2 else 900)
  else
    (let v2 : ℚ := 750 + (0.25 * (A - 200000)); if v2 < 900 then utils.round v2 else 900)

/-- `S` from `src/provincial_income_tax/ontario.rs` lines 101-119: Ontario
tax reduction. -/
def S (T4 V1 : ℚ) (Y : ℤ) : ℚ :=
  let s1 : ℚ := T4 + V1
  let s2 : ℚ := (2 * 294 + (Y : ℚ)) - (T4 + V1)
  if s1 < 0 ∧ s2 < 0 then 0
  else if s1 < s2 then (if s1 < 0 then 0 else s1)
  else (if s2 < 0 then 0 else utils.round s2)

/-- `Y` from `src/provincial_income_tax/ontario.rs` lines 131-133: dependent
credit `544` per disabled plus `544` per minor dependant. -/
def Y (number_of_disabled_dependants number_if_minor_dependents : ℤ) : ℚ :=
  544 * (number_of_disabled_dependants : ℚ) + 544 * (number_if_minor_dependents : ℚ)

end ontario

/-! Helper lemmas about the rounding utility. -/

theorem utils.roundHalf_mono {x y : ℚ} (h : x ≤ y) :
    utils.roundHalf x ≤ utils.roundHalf y := by
  unfold utils.roundHalf
  split_ifs with hx hy
  · have hf : ⌊-y + 1/2⌋ ≤ ⌊-x + 1/2⌋ := Int.floor_mono (by linarith)
    omega
  · have h1 : (0 : ℤ) ≤ ⌊-x + 1/2⌋ := Int.floor_nonneg.mpr (by linarith)
    have h2 : (0 : ℤ) ≤ ⌊y + 1/2⌋ := Int.floor_nonneg.mpr (by push_neg at hy; linarith)
    omega
  · push_neg at hx
    linarith
  · exact Int.floor_mono (by linarith)

theorem utils.round_mono {x y : ℚ} (h : x ≤ y) :
    utils.round x ≤ utils.round y := by
  unfold utils.round
  have hm : utils.roundHalf (x * 100) ≤ utils.roundHalf (y * 100) :=
    utils.roundHalf_mono (by linarith)
  have hc : ((utils.roundHalf (x * 100) : ℤ) : ℚ) ≤ ((utils.roundHalf (y * 100) : ℤ) : ℚ) := by
    exact_mod_cast hm
  linarith

/-- C1: the claimed invariant "the Ontario health premium `V2(A)` is `≥ 0` for
every annual taxable income `A ≥ 0`" fails on the code: the
`48000 < A < 72000` bracket of `V2` computes `600 + 0.25*(A - 72000)` (the
linear term of the next bracket), which is negative throughout most of the
bracket and is returned rounded but unclamped.  At the failing input
`A = 49000` the code yields `-5150`. -/
theorem C1_V2_negative_at_49000 :
    ontario.V2 49000 = -5150 ∧ ¬ ((0 : ℚ) ≤ ontario.V2 49000) := by
  have h : ontario.V2 49000 = -5150 := by
    unfold ontario.V2
    norm_num [utils.round, utils.roundHalf]
  refine ⟨h, ?_⟩
  rw [h]
  norm_num

/-- C3: the claim that for `T4 < NI < T5` the function `BPAF` returns
`Ok(round(MINIMUM_BASIC_AMT - (NI - T4) * (1591/75532)))` fails on the code:
the coded middle branch multiplies `NI * -T4` instead of subtracting
(`(NI*-v2025::INCOME_THRESHOLD_4)`), so at `A = 200000`, `HD = 0` (net income
`200000`, inside the band) the code returns `749394569.93` while the claimed
formula gives `15663.11`. -/
theorem C3_BPAF_band_diverges :
    basic_personal_income.BPAF 200000 0 = Except.ok (74939456993 / 100) ∧
      utils.round (v2025.MINIMUM_BASIC_AMT -
          ((200000 + 0) - v2025.INCOME_THRESHOLD_4) * (1591 / 75532)) = 1566311 / 100 ∧
      (74939456993 / 100 : ℚ) ≠ 1566311 / 100 := by
  refine ⟨?_, ?_, by norm_num⟩
  · unfold basic_personal_income.BPAF
    norm_num [v2025.INCOME_THRESHOLD_4, v2025.INCOME_THRESHOLD_5,
      v2025.MINIMUM_BASIC_AMT, utils.round, utils.roundHalf]
  · norm_num [v2025.INCOME_THRESHOLD_4, v2025.MINIMUM_BASIC_AMT,
      utils.round, utils.roundHalf]

/-- C4: the claim that `BPAF` is monotonic non-increasing in net income fails
on the code: because the interpolation branch computes
`MINIMUM_BASIC_AMT - (NI * -T4) * (1591/75532)` (increasing in `NI`), the net
incomes `177882 ≤ 250000` give `BPAF` values `16129 < 936739180.16`. -/
theorem C4_BPAF_not_monotone :
    (177882 : ℚ) + 0 ≤ 250000 + 0 ∧
      basic_personal_income.BPAF 177882 0 = Except.ok 16129 ∧
      basic_personal_income.BPAF 250000 0 = Except.ok (23418479504 / 25) ∧
      (16129 : ℚ) < 23418479504 / 25 := by
  refine ⟨by norm_num, ?_, ?_, by norm_num⟩
  · unfold basic_personal_income.BPAF
    norm_num [v2025.INCOME_THRESHOLD_4, v2025.INCOME_THRESHOLD_5,
      v2025.MINIMUM_BASIC_AMT, utils.round, utils.roundHalf]
  · unfold basic_personal_income.BPAF
    norm_num [v2025.INCOME_THRESHOLD_4, v2025.INCOME_THRESHOLD_5,
      v2025.MINIMUM_BASIC_AMT, utils.round, utils.roundHalf]

/-- C6: the claim that the CPP contribution cap is a hard ceiling
(`D + C(PM, D, PI, P) ≤ 4034.1 * trunc(PM/12)`) fails on the code: `C`
returns the **greater** of the remaining-cap branch and the rate branch
(`if c1 < c2` returns `c2`), so with `PM = 12`, `D = 4000`, `PI = 100000`,
`P = 1` the contribution is `5741.75` and `D + C = 9741.75 > 4034.1`. -/
theorem C6_C_exceeds_cap :
    other_deductions.C 12 4000 100000 1 = 5741.75 ∧
      ¬ (4000 + other_deductions.C 12 4000 100000 1 ≤
          4034.1 * ((Int.tdiv 12 12 : ℤ) : ℚ)) := by
  have h : other_deductions.C 12 4000 100000 1 = 5741.75 := by
    unfold other_deductions.C
    norm_num [utils.round, utils.roundHalf]
  refine ⟨h, ?_⟩
  rw [h]
  norm_num

/-- C7: the claim that the EI component of the periodic federal credit `K2`
equals `0.15 * min(P * EI, EI_MAX_CONTRIBUTIONS)` (annualize, then cap, as
`K2P` does) fails on the code: `K2` caps the *per-period* premium `EI` at the
annual maximum before multiplying by `P`.  With `P = 26`, `PM = 12`, `C = 0`,
`EI = 100` the code yields `0.15 * 26 * 100 = 390`, while the claimed capped
form gives `round(0.15 * 1077.48) = 161.62`. -/
theorem C7_K2_ei_cap_diverges :
    federal_income_tax.K2 26 12 0 100 = 390 ∧
      utils.round (0.15 * min ((26 : ℚ) * 100) v2025.EI_MAX_CONTRIBUTIONS) = 161.62 ∧
      (390 : ℚ) ≠ 161.62 := by
  refine ⟨?_, ?_, by norm_num⟩
  · unfold federal_income_tax.K2
    norm_num [v2025.EI_MAX_CONTRIBUTIONS, v2025.CPP_MAX_CONTRIBUTIONS,
      utils.round, utils.roundHalf]
  · norm_num [v2025.EI_MAX_CONTRIBUTIONS, utils.round, utils.roundHalf]

/-- C2: the claimed formula
`T_grad = round(max(L, (T1_grad + T2 - M1)/S1 - M) + L)` fails on the code at
`T1_grad = T2 = M1 = 0`, `S1 = 1`, `M = 1`, `L = 5`: the cumulative term is
`-1`, so the code returns `L = 5`, while the claimed formula gives
`round(max(5, -1) + 5) = 10`. -/
theorem C2_T_grad_claim_false :
    income_tax.T_grad 0 0 0 1 1 5 ≠
      utils.round (max 5 (((0 : ℚ) + 0 - 0) / 1 - 1) + 5) := by
  have h1 : income_tax.T_grad 0 0 0 1 1 5 = 5 := by
    unfold income_tax.T_grad
    norm_num
  have h2 : utils.round (max 5 (((0 : ℚ) + 0 - 0) / 1 - 1) + 5) = 10 := by
    have hm : max 5 (((0 : ℚ) + 0 - 0) / 1 - 1) = 5 := by
      rw [max_eq_left (by norm_num)]
    rw [hm]
    norm_num [utils.round, utils.roundHalf]
  rw [h1, h2]
  norm_num

/-- C2 (amended): for every `S1 > 0`, `T_grad(T1_grad, T2, M1, S1, M, L)`
returns `L` (unrounded) when the cumulative term
`t = (T1_grad + T2 - M1)/S1 - M` is negative, and `round(t + L)` otherwise;
consequently, when the requested extra amount `L` is a non-negative
whole-cent amount, the returned withholding never drops below `L`. -/
theorem C2_T_grad_amended (T1_grad T2 M1 S1 M L : ℚ) (hS1 : 0 < S1)
    (hL0 : 0 ≤ L) (hLr : utils.round L = L) :
    (income_tax.T_grad T1_grad T2 M1 S1 M L =
        if ((T1_grad + T2 - M1) / S1) - M < 0 then L
        else utils.round ((((T1_grad + T2 - M1) / S1) - M) + L)) ∧
      L ≤ income_tax.T_grad T1_grad T2 M1 S1 M L := by
  unfold income_tax.T_grad
  constructor
  · rfl
  · by_cases ht : ((T1_grad + T2 - M1) / S1) - M < 0
    · rw [if_pos ht]
    · rw [if_neg ht]
      push_neg at ht
      calc L = utils.round L := hLr.symm
        _ ≤ utils.round ((((T1_grad + T2 - M1) / S1) - M) + L) :=
            utils.round_mono (by linarith)

/-- C2 witness: the amended statement instantiated at
`T1_grad = T2 = M1 = 0`, `S1 = 1`, `M = 1`, `L = 5`. -/
theorem C2_T_grad_amended_witness :
    (income_tax.T_grad 0 0 0 1 1 5 =
        if (((0 : ℚ) + 0 - 0) / 1) - 1 < 0 then 5
        else utils.round (((((0 : ℚ) + 0 - 0) / 1) - 1) + 5)) ∧
      (5 : ℚ) ≤ income_tax.T_grad 0 0 0 1 1 5 :=
  C2_T_grad_amended 0 0 0 1 1 5 (by norm_num) (by norm_num)
    (by norm_num [utils.round, utils.roundHalf])

/-- C5: `BPAF(A, HD)` with `A, HD ≥ 0` returns the error `Err(0.0)` exactly
when net income `NI = A + HD` equals the upper threshold
`INCOME_THRESHOLD_5` (`T5`): the coded branch conditions are `NI ≤ T4`,
`T4 < NI < T5` and `NI > T5`, so only `NI = T5` leaves the accumulator at
`0.0` and triggers the error.  Determinism is immediate since the embedded
function is pure. -/
theorem C5_BPAF_error_iff_at_T5 (A HD : ℚ) (hA : 0 ≤ A) (hHD : 0 ≤ HD) :
    basic_personal_income.BPAF A HD = Except.error 0 ↔
      A + HD = v2025.INCOME_THRESHOLD_5 := by
  unfold basic_personal_income.BPAF
  simp only [v2025.INCOME_THRESHOLD_4, v2025.INCOME_THRESHOLD_5,
    v2025.MINIMUM_BASIC_AMT, v2025.MAXIMUM_BASIC_AMT]
  split_ifs with h1 h2 h3 h4 h5 h6 h7
  · exact absurd h2 (by norm_num)
  · exact iff_of_false (by simp) (by intro h; rw [h] at h1; norm_num at h1)
  · exfalso
    have hNI : (177882 : ℚ) < A + HD := h3.1
    have hpos : (0 : ℚ) < (A + HD) * 177882 * (1591 / 75532) := by positivity
    nlinarith [h4]
  · exact iff_of_false (by simp) (by intro h; rw [h] at h3; exact absurd h3.2 (by norm_num))
  · exact absurd h6 (by norm_num)
  · exact iff_of_false (by simp) (by intro h; rw [h] at h5; norm_num at h5)
  · exact iff_of_true rfl (by push_neg at h1 h3 h5; linarith [h3 h1])
  · exact absurd rfl h7

/-- C5 witness: at `A = 253414`, `HD = 0` (net income exactly `T5`) the
function fails, and the equivalence is instantiated concretely. -/
theorem C5_BPAF_error_iff_at_T5_witness :
    basic_personal_income.BPAF 253414 0 = Except.error 0 ↔
      (253414 : ℚ) + 0 = v2025.INCOME_THRESHOLD_5 :=
  C5_BPAF_error_iff_at_T5 253414 0 (by norm_num) (by norm_num)

/-- C8: for every acquisition amount `x ≥ 0`, `LCF(x)` returns the rounded
raw acquisition amount when `0.15 * x < 750` (equivalently `x < 5000`), and
`750` when `0.15 * x ≥ 750` (equivalently `x ≥ 5000`); in particular
`LCF(4000) = 4000` and `LCF(6000) = 750`. -/
theorem C8_LCF_branches (x : ℚ) (hx : 0 ≤ x) :
    ((0.15 * x < 750 → federal_income_tax.LCF x = utils.round x) ∧
        (750 ≤ 0.15 * x → federal_income_tax.LCF x = 750)) ∧
      ((x < 5000 → federal_income_tax.LCF x = utils.round x) ∧
        (5000 ≤ x → federal_income_tax.LCF x = 750)) ∧
      federal_income_tax.LCF 4000 = 4000 ∧ federal_income_tax.LCF 6000 = 750 := by
  have h4000 : federal_income_tax.LCF 4000 = 4000 := by
    unfold federal_income_tax.LCF
    norm_num [utils.round, utils.roundHalf]
  have h6000 : federal_income_tax.LCF 6000 = 750 := by
    unfold federal_income_tax.LCF
    norm_num
  refine ⟨⟨?_, ?_⟩, ⟨?_, ?_⟩, h4000, h6000⟩
  · intro h
    unfold federal_income_tax.LCF
    rw [if_pos (by linarith)]
  · intro h
    unfold federal_income_tax.LCF
    rw [if_neg (by linarith)]
  · intro h
    unfold federal_income_tax.LCF
    rw [if_pos (by linarith)]
  · intro h
    unfold federal_income_tax.LCF
    rw [if_neg (by linarith)]

/-- C8 witness: the branch characterization applied at the concrete inputs
`x = 4000` and `x = 6000`. -/
theorem C8_LCF_branches_witness :
    federal_income_tax.LCF 4000 = utils.round 4000 ∧
      federal_income_tax.LCF 6000 = 750 :=
  ⟨(C8_LCF_branches 4000 (by norm_num)).1.1 (by norm_num),
    (C8_LCF_branches 6000 (by norm_num)).1.2 (by norm_num)⟩

/-- C9: the claim that `S1` "validates the divisor before dividing and fails
fast with a precondition error" fails on the code: `S1` is the single
expression `(total_pay_periods / current_pay_period) as f64`, an unguarded
`i64` division, so at `current_pay_period = 0` the division itself executes
and panics (Rust divide-by-zero), embedded as
`Except.error RustPanic.divideByZero`; no validation precedes it and no
precondition error value is returned. -/
theorem C9_S1_panics_at_zero :
    basic_personal_income.S1 26 0 = Except.error RustPanic.divideByZero := by
  unfold basic_personal_income.S1
  norm_num

/-- C9 (amended): when `current_pay_period = 0` the unguarded `i64` division
in `S1` panics with a divide-by-zero (a crash, not a returned precondition
error); for every non-zero `current_pay_period` the function returns the
toward-zero-truncated integer quotient, so no NaN or Infinity is ever
produced. -/
theorem C9_S1_amended (total_pay_periods current_pay_period : ℤ) :
    (current_pay_period = 0 →
        basic_personal_income.S1 total_pay_periods current_pay_period =
          Except.error RustPanic.divideByZero) ∧
      (current_pay_period ≠ 0 →
        basic_personal_income.S1 total_pay_periods current_pay_period =
          Except.ok ((Int.tdiv total_pay_periods current_pay_period : ℤ) : ℚ)) := by
  unfold basic_personal_income.S1
  constructor
  · intro h
    rw [if_pos h]
  · intro h
    rw [if_neg h]

/-- C9 witness: the amended statement at `(26, 0)` (panic) and `(26, 4)`
(quotient `6`). -/
theorem C9_S1_amended_witness :
    basic_personal_income.S1 26 0 = Except.error RustPanic.divideByZero ∧
      basic_personal_income.S1 26 4 = Except.ok 6 := by
  refine ⟨(C9_S1_amended 26 0).1 rfl, ?_⟩
  have h := (C9_S1_amended 26 4).2 (by norm_num)
  have ht : Int.tdiv 26 4 = 6 := by decide
  rw [h, ht]
  norm_num

/-- C10: frame of the periodic annual-taxable-income function `A`: whenever
the raw income `a = P*(I - F - F2 - F5A - U1) - HD - F1` is non-negative, the
second component of the result is the caller-supplied `T` unchanged (`L` is
ignored), and in every case the first component is `round(a)`, never clamped
to zero. -/
theorem C10_A_frame (P : ℤ) (I F F2 F5A U1 HD F1 T L : ℚ) :
    (0 ≤ (P : ℚ) * (I - F - F2 - F5A - U1) - HD - F1 →
        (basic_personal_income.A P I F F2 F5A U1 HD F1 T L).2 = T) ∧
      (basic_personal_income.A P I F F2 F5A U1 HD F1 T L).1 =
        utils.round ((P : ℚ) * (I - F - F2 - F5A - U1) - HD - F1) := by
  unfold basic_personal_income.A
  constructor
  · intro h
    simp only [if_neg (not_lt.mpr h)]
  · rfl

/-- C10 witness: the frame property at `P = 1`, `I = 100`, all deductions
zero, `T = 7`, `L = 3`: the raw income `100` is non-negative, so the
estimated tax passes through unchanged and the first component is
`round(100)`. -/
theorem C10_A_frame_witness :
    (basic_personal_income.A 1 100 0 0 0 0 0 0 7 3).2 = 7 ∧
      (basic_personal_income.A 1 100 0 0 0 0 0 0 7 3).1 =
        utils.round ((1 : ℤ) * ((100 : ℚ) - 0 - 0 - 0 - 0) - 0 - 0) :=
  ⟨(C10_A_frame 1 100 0 0 0 0 0 0 7 3).1 (by norm_num),
    (C10_A_frame 1 100 0 0 0 0 0 0 7 3).2⟩

end CdnPayroll
